import Mathlib

/-!
Shallow embedding of `custom_components/silvercrestbp_ble/silvercrest_bp/parser.py`
(class `SilvercrestBPBluetoothDeviceData`).

Modelling choices:
* A notification payload is a `List Nat` of byte values; Python's `data[i]`
  (which raises `IndexError` out of range) is `data[i]?` in `Option`.
* The measurement sink (`update_sensor` calls against the inherited
  `BluetoothData` store) is a list of `(key, value)` entries appended in call
  order.
* The device object's mutable state is `DeviceState`: the single-fire
  `asyncio.Event` as a `Bool` (created unset in `__init__`, set by
  `notification_handler`, never cleared anywhere in the source) and the sink.
* `datetime.strptime(f"{y}/{m}/{d} {h}:{mi:0>2}", '%Y/%m/%d %H:%M')` succeeds,
  for the field ranges reachable here (year ≤ 65535, the rest ≤ 255), exactly
  when the year prints as four digits (1000–9999), month/day form a real
  calendar date, hour ≤ 23 and minute ≤ 59; `validDate` captures that.
* `async_poll` interacts with the transport; the transport's behaviour in one
  session is an `Env` oracle (connect/subscribe outcomes, at most one delivered
  notification and its arrival time, teardown outcomes).  `PollResult` records
  the session's observables: the final device state, whether an exception
  escaped `async_poll`, the returned snapshot (`none` when an exception
  escaped before `_finish_update`), how often `start_notify` was attempted,
  the teardown calls in order, and how the bounded wait ended.
-/

/-- Keys of the sensor readings the handler writes (`SilvercrestBPSensor`). -/
inductive SensorKey
  | timestamp
  | systolic
  | diastolic
  | pulse
deriving DecidableEq

/-- A decoded calendar timestamp (year/month/day/hour/minute). -/
structure DateTimeVal where
  year : Nat
  month : Nat
  day : Nat
  hour : Nat
  minute : Nat
deriving DecidableEq

/-- Native value stored for a sensor reading. -/
inductive SensorVal
  | pressure (v : Nat)
  | bpm (v : Nat)
  | date (d : DateTimeVal)
deriving DecidableEq

/-- One `update_sensor` call: key plus native value. -/
structure SinkEntry where
  key : SensorKey
  value : SensorVal
deriving DecidableEq

/-- Mutable state of a `SilvercrestBPBluetoothDeviceData` object: the
single-fire completion event and the accumulated sensor readings. -/
structure DeviceState where
  event : Bool
  sink : List SinkEntry
deriving DecidableEq

/-- State after `__init__`: the event is created unset, no readings. -/
def initState : DeviceState := { event := false, sink := [] }

/-- The structured record the notification body extracts
(`syst`, `diast`, `arter`, `dyear`, `dmonth`, `dday`, `dhour`, `dminu`,
`puls`, `user` in the source). -/
structure MeasurementRecord where
  systolic : Nat
  diastolic : Nat
  arterial : Nat
  year : Nat
  month : Nat
  day : Nat
  hour : Nat
  minute : Nat
  pulse : Nat
  userSlot : Nat
deriving DecidableEq

/-- The field-extraction block of `notification_handler`, in source order of
the index accesses; any out-of-range access aborts the block (Python
`IndexError`) before any sensor reading is written. -/
def decodeRecord (data : List Nat) : Option MeasurementRecord :=
  data[2]?.bind fun b2 =>
  data[1]?.bind fun b1 =>
  data[4]?.bind fun b4 =>
  data[3]?.bind fun b3 =>
  data[6]?.bind fun b6 =>
  data[5]?.bind fun b5 =>
  data[8]?.bind fun b8 =>
  data[7]?.bind fun b7 =>
  data[9]?.bind fun b9 =>
  data[10]?.bind fun b10 =>
  data[11]?.bind fun b11 =>
  data[12]?.bind fun b12 =>
  data[15]?.bind fun b15 =>
  data[14]?.bind fun b14 =>
  data[16]?.bind fun b16 =>
  some
    { systolic := b2 * 256 + b1
      diastolic := b4 * 256 + b3
      arterial := b6 * 256 + b5
      year := b8 * 256 + b7
      month := b9
      day := b10
      hour := b11
      minute := b12
      pulse := b15 * 256 + b14
      userSlot := b16 }

/-- Gregorian leap-year test, as `datetime` uses. -/
def isLeapYear (y : Nat) : Bool := (y % 4 == 0 && y % 100 != 0) || y % 400 == 0

/-- Length of a month, as `datetime` uses. -/
def daysInMonth (y m : Nat) : Nat :=
  if m == 2 then (if isLeapYear y then 29 else 28)
  else if m == 4 || m == 6 || m == 9 || m == 11 then 30
  else 31

/-- Whether `datetime.strptime(f"{y}/{mo}/{d} {h}:{mi:0>2}", '%Y/%m/%d %H:%M')`
succeeds, for the field values reachable from a payload: `%Y` consumes exactly
four digits (so 1000 ≤ y ≤ 9999), month/day must form a real calendar date,
hour ≤ 23, minute ≤ 59. -/
def validDate (y mo d h mi : Nat) : Bool :=
  decide (1000 ≤ y) && decide (y ≤ 9999) &&
  decide (1 ≤ mo) && decide (mo ≤ 12) &&
  decide (1 ≤ d) && decide (d ≤ daysInMonth y mo) &&
  decide (h ≤ 23) && decide (mi ≤ 59)

/-- Embedding of `notification_handler(self, _, data)`: decode the payload; inside the
inner `try`, record the timestamp only when the date string parses; then
record systolic, diastolic and pulse.  The outer `except Exception` swallows
any failure (in particular a short payload's `IndexError`), and the `finally`
sets the completion event on every path.  The sender argument is unused. -/
def notification_handler (st : DeviceState) (_sender : Nat) (data : List Nat) :
    DeviceState :=
  match decodeRecord data with
  | none => { st with event := true }
  | some r =>
    let st1 : DeviceState :=
      if validDate r.year r.month r.day r.hour r.minute then
        { st with sink := st.sink ++
          [SinkEntry.mk SensorKey.timestamp
            (SensorVal.date ⟨r.year, r.month, r.day, r.hour, r.minute⟩)] }
      else st
    let st2 : DeviceState := { st1 with sink := st1.sink ++
      [SinkEntry.mk SensorKey.systolic (SensorVal.pressure r.systolic),
       SinkEntry.mk SensorKey.diastolic (SensorVal.pressure r.diastolic),
       SinkEntry.mk SensorKey.pulse (SensorVal.bpm r.pulse)] }
    { st2 with event := true }

/-- Embedding of `poll_needed(self, service_info, last_poll)`:
`return not last_poll or last_poll > UPDATE_INTERVAL`.  The update interval
comes from `const.py` (not part of the decoding source); the claims hold or
fail for every value, so it is a parameter.  `last_poll` is `float | None`
in the source and its only uses are Python truthiness (`not last_poll`, false
exactly for `None` and `0`) and an order comparison, both faithfully
represented over `Option Nat`. -/
def poll_needed (UPDATE_INTERVAL : Nat) (last_poll : Option Nat) : Bool :=
  match last_poll with
  | none => true
  | some t => decide (t = 0) || decide (t > UPDATE_INTERVAL)

/-- Timeout of the bounded wait in `async_poll`
(`asyncio.wait_for(self._event.wait(), timeout=15)`). -/
def pollTimeout : Nat := 15

/-- Oracle for the transport's behaviour during one `async_poll` session:
whether `establish_connection` succeeds, whether `start_notify` succeeds, the
one notification the device pushes (payload plus arrival time after the wait
starts), and whether the teardown calls succeed. -/
structure Env where
  connectOk : Bool
  startNotifyOk : Bool
  notification : Option (List Nat)
  arrival : Nat
  sender : Nat
  stopNotifyOk : Bool
  disconnectOk : Bool

/-- The two calls of the `finally` teardown block, in call order. -/
inductive TeardownStep
  | stopNotify
  | disconnect
deriving DecidableEq

/-- Observables of one `async_poll` session. -/
structure PollResult where
  /-- Device state when `async_poll` returns or raises. -/
  state : DeviceState
  /-- Whether an exception escaped `async_poll`. -/
  raised : Bool
  /-- The `SensorUpdate` snapshot returned by `self._finish_update()`, as the
  sink contents it renders; `none` when an exception escaped first. -/
  outcome : Option (List SinkEntry)
  /-- How often `client.start_notify` was attempted. -/
  startNotifyCalls : Nat
  /-- The teardown calls of the `finally` block, in order. -/
  teardown : List TeardownStep
  /-- Whether the bounded wait was reached. -/
  waitReached : Bool
  /-- Whether the bounded wait ended in `asyncio.TimeoutError`. -/
  timedOut : Bool
  /-- Time units spent in the bounded wait. -/
  waited : Nat
deriving DecidableEq

/-- Embedding of `async_poll(self, ble_device)`.  `establish_connection` is outside every
`try`, so a connect failure propagates out of the coroutine before anything
else runs.  On success: `start_notify` is attempted once, its failure caught
and logged; the session then waits on `self._event` for at most
`pollTimeout`.  The wait returns immediately when the event is already set
(teardown then races ahead of any late notification, which is dropped); a
notification delivered before the deadline — possible only if `start_notify`
succeeded — runs `notification_handler`, which sets the event; otherwise the
wait times out, which is caught.  The `finally` block attempts `stop_notify`
then `disconnect`, each failure caught and logged, and `_finish_update()`
renders the sink into the returned snapshot. -/
def async_poll (st : DeviceState) (env : Env) : PollResult :=
  if env.connectOk then
    let delivered : Option (List Nat) :=
      if env.startNotifyOk && decide (env.arrival < pollTimeout) then
        env.notification
      else none
    let stepped : DeviceState × Bool × Nat :=
      if st.event then (st, false, 0)
      else
        match delivered with
        | some d => (notification_handler st env.sender d, false, env.arrival)
        | none => (st, true, pollTimeout)
    { state := stepped.1
      raised := false
      outcome := some stepped.1.sink
      startNotifyCalls := 1
      teardown := [TeardownStep.stopNotify, TeardownStep.disconnect]
      waitReached := true
      timedOut := stepped.2.1
      waited := stepped.2.2 }
  else
    { state := st
      raised := true
      outcome := none
      startNotifyCalls := 0
      teardown := []
      waitReached := false
      timedOut := false
      waited := 0 }

/-- Payload offsets the handler reads. -/
def usedOffsets : List Nat := [1, 2, 3, 4, 5, 6, 7, 8, 9, 10, 11, 12, 14, 15, 16]

/-- An environment with a working transport in which the device never pushes
a notification. -/
def envIdle : Env :=
  { connectOk := true, startNotifyOk := true, notification := none,
    arrival := 0, sender := 0, stopNotifyOk := true, disconnectOk := true }

/-- An environment in which opening the connection fails. -/
def envConnectFail : Env :=
  { connectOk := false, startNotifyOk := true, notification := none,
    arrival := 0, sender := 0, stopNotifyOk := true, disconnectOk := true }

/-- An environment in which the connection opens but registering the
notification callback fails; the device would push a payload. -/
def envSubscribeFail : Env :=
  { connectOk := true, startNotifyOk := false, notification := some [1, 2, 3],
    arrival := 1, sender := 0, stopNotifyOk := true, disconnectOk := true }

-- Characterization lemmas for the decoder.

/-- On an in-range index, indexing agrees with `getD`. -/
theorem getElem?_eq_some_getD (l : List Nat) (i : Nat) (h : i < l.length) :
    l[i]? = some (l.getD i 0) := by
  rw [List.getD_eq_getElem?_getD, List.getElem?_eq_getElem h]
  rfl

/-- A payload of at least 17 bytes decodes to the record of its bytes. -/
theorem decodeRecord_of_le_length (data : List Nat) (h : 17 ≤ data.length) :
    decodeRecord data = some
      { systolic := data.getD 2 0 * 256 + data.getD 1 0
        diastolic := data.getD 4 0 * 256 + data.getD 3 0
        arterial := data.getD 6 0 * 256 + data.getD 5 0
        year := data.getD 8 0 * 256 + data.getD 7 0
        month := data.getD 9 0
        day := data.getD 10 0
        hour := data.getD 11 0
        minute := data.getD 12 0
        pulse := data.getD 15 0 * 256 + data.getD 14 0
        userSlot := data.getD 16 0 } := by
  have e : ∀ i : Nat, i < 17 → data[i]? = some (data.getD i 0) := by
    intro i hi
    exact getElem?_eq_some_getD data i (by omega)
  simp only [decodeRecord, e 1 (by omega), e 2 (by omega), e 3 (by omega),
    e 4 (by omega), e 5 (by omega), e 6 (by omega), e 7 (by omega),
    e 8 (by omega), e 9 (by omega), e 10 (by omega), e 11 (by omega),
    e 12 (by omega), e 14 (by omega), e 15 (by omega), e 16 (by omega),
    Option.some_bind]

/-- A payload shorter than 17 bytes fails to decode. -/
theorem decodeRecord_of_length_lt (data : List Nat) (h : data.length < 17) :
    decodeRecord data = none := by
  have h16 : data[16]? = none := List.getElem?_eq_none (by omega)
  simp only [decodeRecord, h16, Option.none_bind, Option.bind_none]

-- Claim theorems: payload decoder and notification callback.

/-- C1: for every notification payload of at least 17 bytes, the decoder
extracts the fields as little-endian 16-bit pairs at the fixed offsets:
systolic = bytes[1] + bytes[2]*256, diastolic = bytes[3] + bytes[4]*256,
arterial = bytes[5] + bytes[6]*256, year = bytes[7] + bytes[8]*256,
month = bytes[9], day = bytes[10], hour = bytes[11], minute = bytes[12],
pulse = bytes[14] + bytes[15]*256, userSlot = bytes[16]. -/
theorem C1_decoder_fields (data : List Nat) (h : 17 ≤ data.length) :
    decodeRecord data = some
      { systolic := data.getD 1 0 + data.getD 2 0 * 256
        diastolic := data.getD 3 0 + data.getD 4 0 * 256
        arterial := data.getD 5 0 + data.getD 6 0 * 256
        year := data.getD 7 0 + data.getD 8 0 * 256
        month := data.getD 9 0
        day := data.getD 10 0
        hour := data.getD 11 0
        minute := data.getD 12 0
        pulse := data.getD 14 0 + data.getD 15 0 * 256
        userSlot := data.getD 16 0 } := by
  rw [decodeRecord_of_le_length data h]
  simp only [Option.some.injEq, MeasurementRecord.mk.injEq, and_true, true_and]
  omega

/-- C1 witness: the example payload decodes to systolic=120, diastolic=80,
arterial=100, year=2024, month=6, day=15, hour=10, minute=30, pulse=72,
userSlot=1. -/
theorem C1_decoder_fields_witness :
    17 ≤ ([0x00, 0x78, 0x00, 0x50, 0x00, 0x64, 0x00, 0xE8, 0x07, 0x06, 0x0F,
      0x0A, 0x1E, 0x00, 0x48, 0x00, 0x01] : List Nat).length ∧
    decodeRecord [0x00, 0x78, 0x00, 0x50, 0x00, 0x64, 0x00, 0xE8, 0x07, 0x06,
      0x0F, 0x0A, 0x1E, 0x00, 0x48, 0x00, 0x01] =
      some ⟨120, 80, 100, 2024, 6, 15, 10, 30, 72, 1⟩ := by
  refine ⟨by decide, ?_⟩
  rw [C1_decoder_fields _ (by decide)]
  decide

/-- C4: for every payload shorter than 17 bytes the decode attempt fails
(`MalformedPayload`, an `IndexError` in the source) and the handler records
nothing: the state is unchanged except that the completion event is set. -/
theorem C4_short_payload_no_partial (st : DeviceState) (sender : Nat)
    (data : List Nat) (h : data.length < 17) :
    decodeRecord data = none ∧
    notification_handler st sender data = { st with event := true } := by
  refine ⟨decodeRecord_of_length_lt data h, ?_⟩
  unfold notification_handler
  rw [decodeRecord_of_length_lt data h]

/-- C4 witness on a 3-byte payload. -/
theorem C4_short_payload_no_partial_witness :
    ([0, 1, 2] : List Nat).length < 17 ∧
    decodeRecord [0, 1, 2] = none ∧
    notification_handler initState 0 [0, 1, 2] =
      { initState with event := true } := by
  have h := C4_short_payload_no_partial initState 0 [0, 1, 2] (by decide)
  exact ⟨by decide, h.1, h.2⟩

/-- C5: on a payload of at least 17 bytes whose date fields do not form a
valid calendar timestamp, the timestamp failure is isolated: systolic,
diastolic and pulse are still recorded, in that order, and no timestamp
reading is recorded. -/
theorem C5_invalid_timestamp_isolated (st : DeviceState) (sender : Nat)
    (data : List Nat) (h : 17 ≤ data.length)
    (hv : validDate (data.getD 7 0 + data.getD 8 0 * 256) (data.getD 9 0)
      (data.getD 10 0) (data.getD 11 0) (data.getD 12 0) = false) :
    (notification_handler st sender data).sink = st.sink ++
      [SinkEntry.mk SensorKey.systolic
        (SensorVal.pressure (data.getD 1 0 + data.getD 2 0 * 256)),
       SinkEntry.mk SensorKey.diastolic
        (SensorVal.pressure (data.getD 3 0 + data.getD 4 0 * 256)),
       SinkEntry.mk SensorKey.pulse
        (SensorVal.bpm (data.getD 14 0 + data.getD 15 0 * 256))] := by
  rw [Nat.add_comm (data.getD 7 0) (data.getD 8 0 * 256)] at hv
  rw [Nat.add_comm (data.getD 1 0) (data.getD 2 0 * 256),
    Nat.add_comm (data.getD 3 0) (data.getD 4 0 * 256),
    Nat.add_comm (data.getD 14 0) (data.getD 15 0 * 256)]
  unfold notification_handler
  rw [decodeRecord_of_le_length data h]
  simp only [hv, Bool.false_eq_true, if_false]

/-- C5 witness: the example payload with month byte 0 still records
systolic/diastolic/pulse and no timestamp. -/
theorem C5_invalid_timestamp_isolated_witness :
    validDate 2024 0 15 10 30 = false ∧
    (notification_handler initState 0 [0x00, 0x78, 0x00, 0x50, 0x00, 0x64,
      0x00, 0xE8, 0x07, 0x00, 0x0F, 0x0A, 0x1E, 0x00, 0x48, 0x00,
      0x01]).sink =
      [SinkEntry.mk SensorKey.systolic (SensorVal.pressure 120),
       SinkEntry.mk SensorKey.diastolic (SensorVal.pressure 80),
       SinkEntry.mk SensorKey.pulse (SensorVal.bpm 72)] := by
  refine ⟨by decide, ?_⟩
  rw [C5_invalid_timestamp_isolated initState 0 _ (by decide) (by decide)]
  decide

/-- C6: the notification callback is total (the embedding is a Lean function,
matching the outer `except Exception` that swallows every decode or sink
error) and always sets the single-fire completion event on exit, for every
payload of any length. -/
theorem C6_event_always_set (st : DeviceState) (sender : Nat)
    (data : List Nat) :
    (notification_handler st sender data).event = true := by
  unfold notification_handler
  cases decodeRecord data <;> simp

/-- C9: decoding is pure and deterministic; on payloads of at least 17 bytes
the resulting state depends only on the bytes at the used offsets — bytes 0
and 13, bytes beyond index 16, and the sender argument have no influence. -/
theorem C9_decode_pure_deterministic (st : DeviceState) (s1 s2 : Nat)
    (d1 d2 : List Nat) (h1 : 17 ≤ d1.length) (h2 : 17 ≤ d2.length)
    (hagree : ∀ i ∈ usedOffsets, d1.getD i 0 = d2.getD i 0) :
    notification_handler st s1 d1 = notification_handler st s2 d2 := by
  have e : decodeRecord d1 = decodeRecord d2 := by
    rw [decodeRecord_of_le_length d1 h1, decodeRecord_of_le_length d2 h2]
    rw [hagree 1 (by decide), hagree 2 (by decide), hagree 3 (by decide),
      hagree 4 (by decide), hagree 5 (by decide), hagree 6 (by decide),
      hagree 7 (by decide), hagree 8 (by decide), hagree 9 (by decide),
      hagree 10 (by decide), hagree 11 (by decide), hagree 12 (by decide),
      hagree 14 (by decide), hagree 15 (by decide), hagree 16 (by decide)]
  unfold notification_handler
  rw [e]

/-- C9 witness: two payloads differing at bytes 0 and 13, in length beyond
index 16, and in sender, produce identical states. -/
theorem C9_decode_pure_deterministic_witness :
    notification_handler initState 0 [0x00, 0x78, 0x00, 0x50, 0x00, 0x64,
      0x00, 0xE8, 0x07, 0x06, 0x0F, 0x0A, 0x1E, 0x00, 0x48, 0x00, 0x01] =
    notification_handler initState 5 [0xFF, 0x78, 0x00, 0x50, 0x00, 0x64,
      0x00, 0xE8, 0x07, 0x06, 0x0F, 0x0A, 0x1E, 0xFF, 0x48, 0x00, 0x01,
      0xAA, 0xBB] :=
  C9_decode_pure_deterministic initState 0 5 _ _ (by decide) (by decide)
    (by decide)

-- Claim theorems: passive listener and acquisition session.

/-- The completion event of the handler is set on every exit path. -/
theorem notification_handler_event (st : DeviceState) (sender : Nat)
    (data : List Nat) : (notification_handler st sender data).event = true := by
  unfold notification_handler
  cases decodeRecord data <;> simp

/-- C2 counterexample: with interval 60, at now = 61 with stored value
t = 61 the elapsed time 0 does not exceed the interval, yet the code
polls — `poll_needed` ignores `now` entirely. -/
theorem C2_counterexample :
    poll_needed 60 (some 61) = true ∧ ¬(61 - 61 > 60) := by decide

/-- C2 amended: `poll_needed(None)` is true, and for a present value `t` —
which the scheduling collaborator supplies as the elapsed seconds since the
last poll, not as a timestamp — `poll_needed t` is true exactly when `t` is
zero (falsy) or exceeds the update interval. -/
theorem C2_poll_needed_amended (u t : Nat) :
    poll_needed u none = true ∧
    (poll_needed u (some t) = true ↔ (t = 0 ∨ u < t)) := by
  refine ⟨rfl, ?_⟩
  simp [poll_needed]

/-- C3 counterexample: when opening the connection fails, the exception
propagates out of `async_poll`: no outcome is produced and the finalization
(teardown plus `_finish_update`) never runs, so the session does not reach
`Closed` with a metadata-only outcome. -/
theorem C3_counterexample :
    async_poll initState envConnectFail =
      { state := initState, raised := true, outcome := none,
        startNotifyCalls := 0, teardown := [], waitReached := false,
        timedOut := false, waited := 0 } := by decide

/-- C3 amended: a session whose connect fails never invokes subscribe and
never invokes unsubscribe, but the connection error propagates out of the
session: finalization does not run and no snapshot is produced. -/
theorem C3_connect_failure_amended (st : DeviceState) (env : Env)
    (hc : env.connectOk = false) :
    (async_poll st env).startNotifyCalls = 0 ∧
    (async_poll st env).teardown = [] ∧
    (async_poll st env).raised = true ∧
    (async_poll st env).outcome = none ∧
    (async_poll st env).state = st := by
  simp [async_poll, hc]

/-- C3 witness at a concrete failing environment. -/
theorem C3_connect_failure_amended_witness :
    envConnectFail.connectOk = false ∧
    ((async_poll initState envConnectFail).startNotifyCalls = 0 ∧
     (async_poll initState envConnectFail).teardown = [] ∧
     (async_poll initState envConnectFail).raised = true ∧
     (async_poll initState envConnectFail).outcome = none ∧
     (async_poll initState envConnectFail).state = initState) :=
  ⟨rfl, C3_connect_failure_amended initState envConnectFail rfl⟩

/-- C7 counterexample: on an object whose completion event is already set
from an earlier notification, a connected session in which no notification
arrives completes its bounded wait immediately (0 time units), not after the
15-unit timeout. -/
theorem C7_counterexample :
    envIdle.connectOk = true ∧ envIdle.notification = none ∧
    (async_poll { event := true, sink := [] } envIdle).waited = 0 ∧
    (async_poll { event := true, sink := [] } envIdle).timedOut = false := by
  decide

/-- C7 amended: for every session whose completion event is not already set
at entry, in which the connection is established and no notification
arrives, the bounded wait expires after the fixed 15-unit timeout, the
session yields a metadata-only outcome (the sink exactly as at entry;
timeout is not an error, nothing is raised), and teardown — unsubscribe
followed by disconnect — is invoked exactly once in that order, regardless
of whether either teardown step fails, without altering the outcome. -/
theorem C7_timeout_session_amended (st : DeviceState) (env : Env)
    (he : st.event = false) (hc : env.connectOk = true)
    (hn : env.notification = none) :
    (async_poll st env).timedOut = true ∧
    (async_poll st env).waited = pollTimeout ∧
    (async_poll st env).raised = false ∧
    (async_poll st env).state = st ∧
    (async_poll st env).outcome = some st.sink ∧
    (async_poll st env).teardown =
      [TeardownStep.stopNotify, TeardownStep.disconnect] ∧
    (async_poll st env).startNotifyCalls = 1 := by
  simp [async_poll, hc, he, hn]

/-- C7 witness: a fresh object against an idle transport. -/
theorem C7_timeout_session_amended_witness :
    initState.event = false ∧ envIdle.connectOk = true ∧
    envIdle.notification = none ∧
    ((async_poll initState envIdle).timedOut = true ∧
     (async_poll initState envIdle).waited = pollTimeout ∧
     (async_poll initState envIdle).raised = false ∧
     (async_poll initState envIdle).state = initState ∧
     (async_poll initState envIdle).outcome = some initState.sink ∧
     (async_poll initState envIdle).teardown =
       [TeardownStep.stopNotify, TeardownStep.disconnect] ∧
     (async_poll initState envIdle).startNotifyCalls = 1) :=
  ⟨rfl, rfl, rfl, C7_timeout_session_amended initState envIdle rfl rfl rfl⟩

/-- C8: when registering the notification callback fails, the failure is
caught (nothing is raised), the attempt happened once, and the session still
proceeds to the bounded wait; no notification can be delivered, so no
reading is added, and when the event starts unset the timeout path governs
the outcome. -/
theorem C8_subscribe_failure_fail_soft (st : DeviceState) (env : Env)
    (hc : env.connectOk = true) (hs : env.startNotifyOk = false) :
    (async_poll st env).raised = false ∧
    (async_poll st env).startNotifyCalls = 1 ∧
    (async_poll st env).waitReached = true ∧
    (async_poll st env).state.sink = st.sink ∧
    (async_poll st env).outcome = some st.sink ∧
    (st.event = false →
      (async_poll st env).timedOut = true ∧
      (async_poll st env).waited = pollTimeout) := by
  by_cases hev : st.event = true
  · simp [async_poll, hc, hs, hev]
  · have hev' : st.event = false := by
      revert hev; cases st.event <;> simp
    simp [async_poll, hc, hs, hev']

/-- C8 witness: a fresh object against a transport whose subscribe fails. -/
theorem C8_subscribe_failure_fail_soft_witness :
    envSubscribeFail.connectOk = true ∧
    envSubscribeFail.startNotifyOk = false ∧
    ((async_poll initState envSubscribeFail).raised = false ∧
     (async_poll initState envSubscribeFail).startNotifyCalls = 1 ∧
     (async_poll initState envSubscribeFail).waitReached = true ∧
     (async_poll initState envSubscribeFail).state.sink = initState.sink ∧
     (async_poll initState envSubscribeFail).outcome = some initState.sink ∧
     (initState.event = false →
       (async_poll initState envSubscribeFail).timedOut = true ∧
       (async_poll initState envSubscribeFail).waited = pollTimeout)) :=
  ⟨rfl, rfl, C8_subscribe_failure_fail_soft initState envSubscribeFail rfl rfl⟩

/-- C10: the completion event is created unset once at construction and is
never cleared: every callback run leaves it set, `async_poll` never resets
it, and a session entered with the event already set completes its bounded
wait immediately (0 units, no timeout) instead of waiting the 15-unit
timeout. -/
theorem C10_event_latched (st : DeviceState) (sender : Nat) (data : List Nat)
    (env : Env) (h : st.event = true) :
    initState.event = false ∧
    (notification_handler st sender data).event = true ∧
    (async_poll st env).state.event = true ∧
    (env.connectOk = true →
      (async_poll st env).waited = 0 ∧
      (async_poll st env).timedOut = false) := by
  refine ⟨rfl, notification_handler_event st sender data, ?_, ?_⟩
  · by_cases hc : env.connectOk = true
    · simp [async_poll, hc, h]
    · have hc' : env.connectOk = false := by
        revert hc; cases env.connectOk <;> simp
      simp [async_poll, hc', h]
  · intro hc
    simp [async_poll, hc, h]

/-- C10 witness: an object whose event is set, polled again over an idle
transport: the wait completes immediately. -/
theorem C10_event_latched_witness :
    ({ event := true, sink := [] } : DeviceState).event = true ∧
    (initState.event = false ∧
     (notification_handler { event := true, sink := [] } 0 []).event = true ∧
     (async_poll { event := true, sink := [] } envIdle).state.event = true ∧
     (envIdle.connectOk = true →
       (async_poll { event := true, sink := [] } envIdle).waited = 0 ∧
       (async_poll { event := true, sink := [] } envIdle).timedOut = false)) :=
  ⟨rfl, C10_event_latched { event := true, sink := [] } 0 [] envIdle rfl⟩
